import Mathlib

/-!
# Verification of the Production Analytics & Forecasting Engine

Shallow embedding, in Lean 4, of the numeric core of the repository
(`analysis.py` and `advanced_hourly_analysis.py`), together with proofs
and refutations of the specification claims about it.

Conventions:
* Python floats are modelled as `ℚ` (exact rational arithmetic); the only
  genuinely irrational quantity reached by the claims is a standard
  deviation, which enters the relevant score formula through a parameter
  `σ` constrained by the properties every real standard deviation has
  (`0 ≤ σ`, `σ² = variance`).
* `dict.get(key, default)` is modelled by a structure field holding the
  defaulted value, except where a claim distinguishes the absent case
  (`std_daily_tons`), which is an `Option ℚ`.
* The Thai narrative strings are abstracted to their structured payloads
  (event constructors carrying the numbers that are interpolated into the
  messages); persona names are kept verbatim as the source's `String`s.
* `datetime.now()` is modelled by an explicit month argument.
-/

/-- A companion "today stats" map as consumed by the anomaly/score/forecast
paths of `analysis.py` (`stats.get(...)` keys, defaults applied). -/
structure Stats where
  todayTotal : ℚ
  avgDailyTons : ℚ
  stdDailyTons : Option ℚ
  type1Percent : ℚ
  avgFreshPercent : ℚ
  lineATotal : ℚ
  lineBTotal : ℚ
  type1Total : ℚ
  type2Total : ℚ
  hasComparisonData : Bool
deriving DecidableEq

/-- The "execution summary" map (`exec_summary.get(...)` keys). -/
structure ExecSummary where
  hoursProcessed : ℚ
  peakHourTons : ℚ
deriving DecidableEq

/-- The trend-comparison map (`trend_data.get(...)` keys). -/
structure TrendData where
  hasTrendData : Bool
  tonsTrendPercent : ℚ
  freshTrendPercent : ℚ
deriving DecidableEq

/-- `_select_persona_name` (analysis.py): the deterministic operating-state
decision tree over the three sub-scores, the trend score and the elapsed
hours.  The returned strings are the source's persona keys. -/
def selectPersonaName (quantity quality stability : ℤ) (trendScore : ℤ)
    (hoursProcessed : ℚ) : String :=
  if (1 < hoursProcessed ∧ hoursProcessed < 8) ∧ (quantity < 3 ∨ quality < 3) then
    "WEAK_START"
  else if quantity ≤ 2 ∧ quality ≤ 2 then "CRITICAL"
  else if 4 ≤ quantity ∧ 4 ≤ quality ∧ 4 ≤ stability then "EXCELLENT"
  else if trendScore ≤ -2 ∧ 3 ≤ quantity ∧ 3 ≤ quality then "CONCERNING_TREND"
  else if 2 ≤ trendScore ∧ 3 ≤ quantity ∧ 3 ≤ quality then "STABLE_RECOVERY"
  else if 4 ≤ quantity ∧ quality ≤ 2 then "QUANTITY_PUSH"
  else if quantity ≤ 2 ∧ 4 ≤ quality then "QUALITY_FOCUS"
  else if 3 ≤ quantity ∧ stability ≤ 2 then "VOLATILE_PERFORMANCE"
  else "STEADY_PERFORMANCE"

/-- The sanity-clamp step of `_generate_ai_predictions` (analysis.py,
lines 829-853): given today's observed volume/quality and the two raw model
predictions, returns the reported (clamped) volume, the reported quality and
the `prediction_adjusted` flag. -/
def clampPredictions (todayQty todayQly predQty predQly : ℚ) : ℚ × ℚ × Bool :=
  if predQty < 0 ∨ todayQty * (7/5) < predQty ∨ predQty < todayQty * (3/5) then
    if predQly < 0 ∨ 100 < predQly then (todayQty, todayQly, true)
    else (todayQty, predQly, true)
  else
    if predQly < 0 ∨ 100 < predQly then (predQty, todayQly, true)
    else (predQty, predQly, false)

/-- CLAIM C2 (counterexample). The claim quantifies over *every*
elapsed-hours value, but for `quantity=1, quality=1` with `hours_processed`
strictly between 1 and 8 the first (weak-start) branch fires, so the
classifier returns `"WEAK_START"`, not `"CRITICAL"`: at stability 3,
trend 0 and 5 elapsed hours the result is not `"CRITICAL"`. -/
theorem selectPersonaName_critical_fails_midmorning :
    selectPersonaName 1 1 3 0 5 ≠ "CRITICAL" := by decide

/-- CLAIM C2 (amended).  For every stability sub-score, trend score and
elapsed-hours value, `(5,5,5)` classifies as `"EXCELLENT"`; and `(1,1,·)`
classifies as `"CRITICAL"` for every stability and trend score provided the
elapsed-hours value is not strictly between 1 and 8 (outside the weak-start
window that takes precedence). -/
theorem selectPersonaName_excellent_and_critical (stability trendScore : ℤ)
    (hours hours' : ℚ) (h : ¬(1 < hours ∧ hours < 8)) :
    selectPersonaName 5 5 5 trendScore hours' = "EXCELLENT" ∧
    selectPersonaName 1 1 stability trendScore hours = "CRITICAL" := by
  constructor
  · unfold selectPersonaName
    rw [if_neg, if_neg, if_pos] <;> omega
  · unfold selectPersonaName
    rw [if_neg, if_pos]
    · omega
    · rintro ⟨h18, -⟩
      exact h h18

/-- Witness for `selectPersonaName_excellent_and_critical` at stability 3,
trend 0, hours 0 (and 5 for the excellent part). -/
theorem selectPersonaName_excellent_and_critical_witness :
    selectPersonaName 5 5 5 0 5 = "EXCELLENT" ∧
    selectPersonaName 1 1 3 0 0 = "CRITICAL" :=
  selectPersonaName_excellent_and_critical 3 0 0 5 (by norm_num)

/-- CLAIM C1 (counterexample).  The quality clamp falls back to *today's
observed quality*, which the code never bounds: with today's quality 150 and
a raw quality prediction of 200, the reported quality is 150 ∉ [0,100], so
the predicted quality does not lie within [0,100] for every input. -/
theorem clampPredictions_quality_can_exceed_100 :
    ¬((clampPredictions 100 150 100 200).2.1 ≤ 100) := by
  norm_num [clampPredictions]

/-- CLAIM C1 (amended).  With today's volume positive, the reported volume
always lies within [0.6×today, 1.4×today]; the reported quality lies within
[0,100] provided today's observed quality does (the fallback value);
and whenever a raw prediction falls outside its sanity range the reported
value is replaced by today's observed value and the result is flagged
adjusted. -/
theorem clampPredictions_spec (t tq pq pl : ℚ) (ht : 0 < t)
    (h0 : 0 ≤ tq) (h1 : tq ≤ 100) :
    (t * (3/5) ≤ (clampPredictions t tq pq pl).1 ∧
      (clampPredictions t tq pq pl).1 ≤ t * (7/5)) ∧
    (0 ≤ (clampPredictions t tq pq pl).2.1 ∧
      (clampPredictions t tq pq pl).2.1 ≤ 100) ∧
    ((pq < 0 ∨ t * (7/5) < pq ∨ pq < t * (3/5)) →
      (clampPredictions t tq pq pl).1 = t ∧
      (clampPredictions t tq pq pl).2.2 = true) ∧
    ((pl < 0 ∨ 100 < pl) →
      (clampPredictions t tq pq pl).2.1 = tq ∧
      (clampPredictions t tq pq pl).2.2 = true) := by
  unfold clampPredictions
  split_ifs with hv hq hq <;> dsimp only
  · exact ⟨⟨by linarith, by linarith⟩, ⟨h0, h1⟩,
      fun _ => ⟨rfl, rfl⟩, fun _ => ⟨rfl, rfl⟩⟩
  · simp only [not_or, not_lt] at hq
    refine ⟨⟨by linarith, by linarith⟩, ⟨hq.1, hq.2⟩,
      fun _ => ⟨rfl, rfl⟩, fun h => ?_⟩
    rcases h with h | h <;> [linarith [hq.1]; linarith [hq.2]]
  · simp only [not_or, not_lt] at hv
    refine ⟨⟨hv.2.2, hv.2.1⟩, ⟨h0, h1⟩, fun h => ?_, fun _ => ⟨rfl, rfl⟩⟩
    rcases h with h | h | h <;>
      [linarith [hv.1]; linarith [hv.2.1]; linarith [hv.2.2]]
  · simp only [not_or, not_lt] at hv hq
    refine ⟨⟨hv.2.2, hv.2.1⟩, ⟨hq.1, hq.2⟩, fun h => ?_, fun h => ?_⟩
    · rcases h with h | h | h <;>
        [linarith [hv.1]; linarith [hv.2.1]; linarith [hv.2.2]]
    · rcases h with h | h <;> [linarith [hq.1]; linarith [hq.2]]

/-- Witness for `clampPredictions_spec`: today volume 100, today quality 80,
raw predictions 500 (out of range) and 50. -/
theorem clampPredictions_spec_witness :
    ((100 : ℚ) * (3/5) ≤ (clampPredictions 100 80 500 50).1 ∧
      (clampPredictions 100 80 500 50).1 ≤ 100 * (7/5)) ∧
    (0 ≤ (clampPredictions 100 80 500 50).2.1 ∧
      (clampPredictions 100 80 500 50).2.1 ≤ 100) ∧
    (((500 : ℚ) < 0 ∨ (100 : ℚ) * (7/5) < 500 ∨ (500 : ℚ) < (100 : ℚ) * (3/5)) →
      (clampPredictions 100 80 500 50).1 = 100 ∧
      (clampPredictions 100 80 500 50).2.2 = true) ∧
    (((50 : ℚ) < 0 ∨ (100 : ℚ) < 50) →
      (clampPredictions 100 80 500 50).2.1 = 80 ∧
      (clampPredictions 100 80 500 50).2.2 = true) :=
  clampPredictions_spec 100 80 500 50 (by norm_num) (by norm_num) (by norm_num)

/-- Structured payloads of the anomaly messages produced by the six rules of
`_local_ai_anomaly_detection` (analysis.py).  Each constructor carries the
numbers interpolated into the corresponding Thai message (direction is the
constructor; the z-score / ratio / percentage are the arguments). -/
inductive AnomalyEvent where
  | volumeHigh (diffPct z : ℚ)
  | volumeLow (diffPct z : ℚ)
  | qualityHigh (diff : ℚ)
  | qualityLow (diff : ℚ)
  | rateHigh (ratio : ℚ)
  | rateLow (ratio : ℚ)
  | peakHour (ratio : ℚ)
  | streamA (pct : ℚ)
  | streamB (pct : ℚ)
  | gradeFresh (pct : ℚ)
  | gradeBurnt (pct : ℚ)
deriving DecidableEq

/-- Rule 1 of `_local_ai_anomaly_detection`: volume Z-score.  The standard
deviation defaults to `avg_total * 0.2` when `std_daily_tons` is absent. -/
def volumeRule (s : Stats) : List AnomalyEvent :=
  let stdTotal := s.stdDailyTons.getD (s.avgDailyTons * (1/5))
  if 0 < s.avgDailyTons ∧ 0 < stdTotal then
    let z := |s.todayTotal - s.avgDailyTons| / stdTotal
    if 2 < z then
      let diffPct := (s.todayTotal - s.avgDailyTons) / s.avgDailyTons * 100
      if 0 < diffPct then [.volumeHigh diffPct z] else [.volumeLow diffPct z]
    else []
  else []

/-- Rule 2: quality percentage deviation (threshold 10 points). -/
def qualityRule (s : Stats) : List AnomalyEvent :=
  if 0 < s.avgFreshPercent ∧ 10 < |s.type1Percent - s.avgFreshPercent| then
    let diff := s.type1Percent - s.avgFreshPercent
    if 0 < diff then [.qualityHigh diff] else [.qualityLow diff]
  else []

/-- Rule 3: rate-of-flow deviation against `avg_daily / 24`. -/
def rateRule (s : Stats) (e : ExecSummary) : List AnomalyEvent :=
  if 0 < e.hoursProcessed ∧ 0 < s.avgDailyTons then
    let expectedHourly := s.avgDailyTons / 24
    if 0 < expectedHourly then
      let rateRatio := s.todayTotal / e.hoursProcessed / expectedHourly
      if 3/2 < rateRatio then [.rateHigh rateRatio]
      else if rateRatio < 1/2 then [.rateLow rateRatio]
      else []
    else []
  else []

/-- Rule 4: peak-hour-to-average ratio (threshold 2.5). -/
def peakRule (s : Stats) (e : ExecSummary) : List AnomalyEvent :=
  if 0 < e.hoursProcessed ∧ 0 < s.todayTotal ∧ 0 < e.peakHourTons then
    let avgHourly := s.todayTotal / e.hoursProcessed
    if 0 < avgHourly then
      let peakRatio := e.peakHourTons / avgHourly
      if 5/2 < peakRatio then [.peakHour peakRatio] else []
    else []
  else []

/-- Rule 5: stream (line A/B) imbalance, evaluated only when both stream
totals are positive. -/
def streamRule (s : Stats) : List AnomalyEvent :=
  if 0 < s.lineATotal ∧ 0 < s.lineBTotal then
    let ratio := s.lineATotal / (s.lineATotal + s.lineBTotal) * 100
    if 70 < ratio then [.streamA ratio]
    else if ratio < 30 then [.streamB (100 - ratio)]
    else []
  else []

/-- Rule 6: grade (fresh/burnt) ratio extremity. -/
def gradeRule (s : Stats) : List AnomalyEvent :=
  if 0 < s.type1Total ∧ 0 < s.type2Total then
    let ratio := s.type1Total / (s.type1Total + s.type2Total) * 100
    if 95 < ratio then [.gradeFresh ratio]
    else if ratio < 50 then [.gradeBurnt (100 - ratio)]
    else []
  else []

/-- `_local_ai_anomaly_detection` (analysis.py): returns no anomalies when
today has no volume, otherwise appends the events of the six rules in
order. -/
def localAiAnomalyDetection (s : Stats) (e : ExecSummary) : List AnomalyEvent :=
  if s.todayTotal ≤ 0 then []
  else
    volumeRule s ++ qualityRule s ++ rateRule s e ++ peakRule s e ++
      streamRule s ++ gradeRule s

/-- Recognizer for the two volume-rule events. -/
def isVolumeEvent : AnomalyEvent → Bool
  | .volumeHigh _ _ => true
  | .volumeLow _ _ => true
  | _ => false

/-- A today-stats map carrying only the volume-rule fields (the other keys
default to 0 / absent, exactly as `stats.get` would). -/
def mkTodayStats (today avg : ℚ) (std : Option ℚ) : Stats :=
  ⟨today, avg, std, 0, 0, 0, 0, 0, 0, false⟩

theorem filter_isVolume_volumeRule (s : Stats) :
    (volumeRule s).filter isVolumeEvent = volumeRule s := by
  unfold volumeRule; dsimp only; split_ifs <;> rfl

theorem filter_isVolume_qualityRule (s : Stats) :
    (qualityRule s).filter isVolumeEvent = [] := by
  unfold qualityRule; dsimp only; split_ifs <;> rfl

theorem filter_isVolume_rateRule (s : Stats) (e : ExecSummary) :
    (rateRule s e).filter isVolumeEvent = [] := by
  unfold rateRule; dsimp only; split_ifs <;> rfl

theorem filter_isVolume_peakRule (s : Stats) (e : ExecSummary) :
    (peakRule s e).filter isVolumeEvent = [] := by
  unfold peakRule; dsimp only; split_ifs <;> rfl

theorem filter_isVolume_streamRule (s : Stats) :
    (streamRule s).filter isVolumeEvent = [] := by
  unfold streamRule; dsimp only; split_ifs <;> rfl

theorem filter_isVolume_gradeRule (s : Stats) :
    (gradeRule s).filter isVolumeEvent = [] := by
  unfold gradeRule; dsimp only; split_ifs <;> rfl

/-- CLAIM C3 (confirmed).  For every input with positive today volume,
positive historical average and positive standard deviation: the volume
events of the full anomaly list are exactly those of the volume rule; the
volume rule triggers iff `z = |today − avg| / std > 2`; for every deviation
`d` that stays within the positive-volume domain (`d < avg`) and is large
enough to trigger (`d/std > 2`), the equal-magnitude inputs `avg ± d` both
trigger, with opposite direction constructors and the same z-value
`d / std`; and an absent standard-deviation baseline behaves exactly as
`0.2 × avg`. -/
theorem volume_anomaly_spec (t avg std d : ℚ) (e : ExecSummary)
    (ht : 0 < t) (ha : 0 < avg) (hs : 0 < std) :
    ((localAiAnomalyDetection (mkTodayStats t avg (some std)) e).filter
        isVolumeEvent = volumeRule (mkTodayStats t avg (some std))) ∧
    (volumeRule (mkTodayStats t avg (some std)) ≠ [] ↔
      2 < |t - avg| / std) ∧
    (0 < avg - d → 2 < d / std →
      volumeRule (mkTodayStats (avg + d) avg (some std))
          = [.volumeHigh (d / avg * 100) (d / std)] ∧
      volumeRule (mkTodayStats (avg - d) avg (some std))
          = [.volumeLow (-(d / avg * 100)) (d / std)]) ∧
    (volumeRule (mkTodayStats t avg none)
        = volumeRule (mkTodayStats t avg (some (avg * (1/5))))) := by
  refine ⟨?_, ?_, ?_, ?_⟩
  · unfold localAiAnomalyDetection
    dsimp only [mkTodayStats]
    rw [if_neg (not_le.2 ht)]
    simp only [List.filter_append, filter_isVolume_volumeRule,
      filter_isVolume_qualityRule, filter_isVolume_rateRule,
      filter_isVolume_peakRule, filter_isVolume_streamRule,
      filter_isVolume_gradeRule, List.append_nil]
  · unfold volumeRule mkTodayStats
    dsimp only [Option.getD]
    rw [if_pos ⟨ha, hs⟩]
    split_ifs with hz hp <;> simp [hz]
  · intro hd htrig
    have hd0 : 0 < d := by
      have h2 : 2 * std < d := (lt_div_iff₀ hs).1 htrig
      linarith
    constructor
    · unfold volumeRule mkTodayStats
      dsimp only [Option.getD]
      rw [if_pos ⟨ha, hs⟩]
      have h1 : avg + d - avg = d := by ring
      rw [h1, abs_of_pos hd0, if_pos htrig,
        if_pos (mul_pos (div_pos hd0 ha) (by norm_num : (0:ℚ) < 100))]
    · unfold volumeRule mkTodayStats
      dsimp only [Option.getD]
      rw [if_pos ⟨ha, hs⟩]
      have h1 : avg - d - avg = -d := by ring
      have h2 : -d / avg * 100 = -(d / avg * 100) := by ring
      have h3 : 0 < d / avg * 100 := mul_pos (div_pos hd0 ha) (by norm_num)
      rw [h1, abs_neg, abs_of_pos hd0, if_pos htrig, h2,
        if_neg (not_lt.2 (neg_nonpos.2 h3.le))]
  · rfl

/-- Witness for `volume_anomaly_spec`: today 400, average 1000, std 100,
deviation 300 (z = 3), with the symmetric-deviation antecedents discharged
at these values. -/
theorem volume_anomaly_spec_witness :
    ((localAiAnomalyDetection (mkTodayStats 400 1000 (some 100)) ⟨0, 0⟩).filter
        isVolumeEvent = volumeRule (mkTodayStats 400 1000 (some 100))) ∧
    (volumeRule (mkTodayStats 400 1000 (some 100)) ≠ [] ↔
      2 < |(400 : ℚ) - 1000| / 100) ∧
    (volumeRule (mkTodayStats (1000 + 300) 1000 (some 100))
        = [.volumeHigh ((300 : ℚ) / 1000 * 100) ((300 : ℚ) / 100)]) ∧
    (volumeRule (mkTodayStats (1000 - 300) 1000 (some 100))
        = [.volumeLow (-((300 : ℚ) / 1000 * 100)) ((300 : ℚ) / 100)]) ∧
    (volumeRule (mkTodayStats 400 1000 none)
        = volumeRule (mkTodayStats 400 1000 (some (1000 * (1/5))))) := by
  have w := volume_anomaly_spec 400 1000 100 300 ⟨0, 0⟩ (by norm_num)
    (by norm_num) (by norm_num)
  exact ⟨w.1, w.2.1, (w.2.2.1 (by norm_num) (by norm_num)).1,
    (w.2.2.1 (by norm_num) (by norm_num)).2, w.2.2.2⟩

/-- CLAIM C7 (counterexample).  The stream-imbalance rule requires *both*
stream totals to be strictly positive; with stream A = 100, stream B = 0
(combined total 100 > 0, A's share 100% > 70%) no anomaly at all is
produced, so the claim fails as stated. -/
theorem stream_imbalance_missed_when_b_zero :
    (70 : ℚ) < 100 / (100 + 0) * 100 ∧
    localAiAnomalyDetection ⟨100, 0, none, 0, 0, 100, 0, 0, 0, false⟩ ⟨0, 0⟩
      = [] := by
  constructor
  · norm_num
  · norm_num [localAiAnomalyDetection, volumeRule, qualityRule, rateRule,
      peakRule, streamRule, gradeRule, Option.getD]

/-- CLAIM C7 (amended).  With positive activity today and *both* stream
totals positive, whenever a stream carries more than 70% of the combined
total the anomaly list contains the imbalance event naming that stream. -/
theorem stream_imbalance_spec (s : Stats) (e : ExecSummary)
    (ht : 0 < s.todayTotal) (ha : 0 < s.lineATotal) (hb : 0 < s.lineBTotal) :
    (70 < s.lineATotal / (s.lineATotal + s.lineBTotal) * 100 →
      AnomalyEvent.streamA (s.lineATotal / (s.lineATotal + s.lineBTotal) * 100)
        ∈ localAiAnomalyDetection s e) ∧
    (70 < s.lineBTotal / (s.lineATotal + s.lineBTotal) * 100 →
      AnomalyEvent.streamB
          (100 - s.lineATotal / (s.lineATotal + s.lineBTotal) * 100)
        ∈ localAiAnomalyDetection s e) := by
  have hmem : ∀ ev, ev ∈ streamRule s → ev ∈ localAiAnomalyDetection s e := by
    intro ev hev
    unfold localAiAnomalyDetection
    rw [if_neg (not_le.2 ht)]
    simp only [List.mem_append]
    tauto
  have hab : 0 < s.lineATotal + s.lineBTotal := by linarith
  constructor
  · intro h70
    apply hmem
    unfold streamRule
    rw [if_pos ⟨ha, hb⟩]
    dsimp only
    rw [if_pos h70]
    exact List.mem_singleton_self _
  · intro h70
    have h30 : s.lineATotal / (s.lineATotal + s.lineBTotal) * 100 < 30 := by
      rw [div_mul_eq_mul_div, lt_div_iff₀ hab] at h70
      rw [div_mul_eq_mul_div, div_lt_iff₀ hab]
      linarith
    apply hmem
    unfold streamRule
    rw [if_pos ⟨ha, hb⟩]
    dsimp only
    rw [if_neg (by linarith : ¬(70 < s.lineATotal /
      (s.lineATotal + s.lineBTotal) * 100)), if_pos h30]
    exact List.mem_singleton_self _

/-- Witness for `stream_imbalance_spec`: the spec scenario stream A = 2000,
stream B = 300 (share ≈ 86.9% > 70%). -/
theorem stream_imbalance_spec_witness :
    ((70 : ℚ) < 2000 / (2000 + 300) * 100 →
      AnomalyEvent.streamA ((2000 : ℚ) / (2000 + 300) * 100)
        ∈ localAiAnomalyDetection ⟨2300, 0, none, 0, 0, 2000, 300, 0, 0, false⟩
            ⟨0, 0⟩) ∧
    ((70 : ℚ) < 300 / (2000 + 300) * 100 →
      AnomalyEvent.streamB (100 - (2000 : ℚ) / (2000 + 300) * 100)
        ∈ localAiAnomalyDetection ⟨2300, 0, none, 0, 0, 2000, 300, 0, 0, false⟩
            ⟨0, 0⟩) :=
  stream_imbalance_spec ⟨2300, 0, none, 0, 0, 2000, 300, 0, 0, false⟩ ⟨0, 0⟩
    (by norm_num) (by norm_num) (by norm_num)

/-- `LocalAIEngine.extract_features` (analysis.py): the 14-entry feature
vector.  The call `datetime.now().month` is modelled by the explicit
`nowMonth` argument. -/
def extractFeatures (s : Stats) (e : ExecSummary) (t : TrendData)
    (nowMonth : ℕ) : List ℚ :=
  [ s.todayTotal, s.avgDailyTons,
    s.type1Percent, s.avgFreshPercent,
    e.hoursProcessed, e.peakHourTons,
    t.tonsTrendPercent, t.freshTrendPercent,
    if 0 < s.avgDailyTons then s.todayTotal / s.avgDailyTons else 1,
    if 0 < s.avgFreshPercent then s.type1Percent / s.avgFreshPercent else 1,
    if 0 < s.todayTotal ∧ 0 < e.hoursProcessed then
      e.peakHourTons / (s.todayTotal / e.hoursProcessed) else 1,
    |t.tonsTrendPercent|,
    |t.freshTrendPercent|,
    if nowMonth ∈ [12, 1, 2, 3, 4] then 1 else 0 ]

/-- CLAIM C9 (counterexample).  The feature vector's last entry reads the
wall clock (`datetime.now().month`): two invocations with identical stats,
exec summary and trend data, one in April and one in May, return different
vectors — the output does not depend only on the supplied inputs. -/
theorem extractFeatures_depends_on_clock_month :
    extractFeatures ⟨0, 0, none, 0, 0, 0, 0, 0, 0, false⟩ ⟨0, 0⟩ ⟨false, 0, 0⟩ 4 ≠
    extractFeatures ⟨0, 0, none, 0, 0, 0, 0, 0, 0, false⟩ ⟨0, 0⟩ ⟨false, 0, 0⟩ 5 := by
  norm_num [extractFeatures]

/-- CLAIM C9 (amended).  The feature builder is a pure function of the
supplied stats, exec summary, trend data and the invocation month: it is a
fixed-length (14) vector, and two invocations agree whenever their months
lie in the same seasonal class (both in Dec–Apr or both outside). -/
theorem extractFeatures_deterministic (s : Stats) (e : ExecSummary)
    (t : TrendData) (m m' : ℕ)
    (h : m ∈ [12, 1, 2, 3, 4] ↔ m' ∈ [12, 1, 2, 3, 4]) :
    extractFeatures s e t m = extractFeatures s e t m' ∧
    (extractFeatures s e t m).length = 14 := by
  constructor
  · unfold extractFeatures
    have hlast : (if m ∈ [12, 1, 2, 3, 4] then (1 : ℚ) else 0)
        = (if m' ∈ [12, 1, 2, 3, 4] then 1 else 0) := by
      by_cases hm : m ∈ [12, 1, 2, 3, 4]
      · rw [if_pos hm, if_pos (h.mp hm)]
      · rw [if_neg hm, if_neg fun hm' => hm (h.mpr hm')]
    rw [hlast]
  · rfl

/-- Witness for `extractFeatures_deterministic`: months 1 and 12 (both in
the season window), all-zero inputs. -/
theorem extractFeatures_deterministic_witness :
    extractFeatures ⟨0, 0, none, 0, 0, 0, 0, 0, 0, false⟩ ⟨0, 0⟩
        ⟨false, 0, 0⟩ 1 =
      extractFeatures ⟨0, 0, none, 0, 0, 0, 0, 0, 0, false⟩ ⟨0, 0⟩
        ⟨false, 0, 0⟩ 12 ∧
    (extractFeatures ⟨0, 0, none, 0, 0, 0, 0, 0, 0, false⟩ ⟨0, 0⟩
        ⟨false, 0, 0⟩ 1).length = 14 :=
  extractFeatures_deterministic _ _ _ 1 12 (by decide)

/-- One hourly aggregation bucket of `advanced_hourly_analysis.py` (the
DataFrame columns actually read by the analyzer). -/
structure HourRecord where
  totalTons : ℚ
  totalCount : ℚ
  aTons : ℚ
  bTons : ℚ
  freshTons : ℚ
  burntTons : ℚ
deriving DecidableEq

/-- Insertion into an ascending-sorted list. -/
def insertAsc (x : ℚ) : List ℚ → List ℚ
  | [] => [x]
  | y :: ys => if x ≤ y then x :: y :: ys else y :: insertAsc x ys

/-- Ascending sort (the sort performed inside `np.percentile`). -/
def sortAsc (xs : List ℚ) : List ℚ := xs.foldr insertAsc []

/-- `np.percentile(xs, q)` with the default linear interpolation: index
`h = (n−1)·q/100` into the sorted data, interpolating between the two
neighbouring order statistics (`q` is a whole percent here, as in every
call site: 25 and 75). -/
def percentile (xs : List ℚ) (q : ℕ) : ℚ :=
  let s := sortAsc xs
  let n := s.length
  let i := (n - 1) * q / 100
  let g : ℚ := (((n - 1) * q % 100 : ℕ) : ℚ) / 100
  s.getD i 0 + g * (s.getD (min (i + 1) (n - 1)) 0 - s.getD i 0)

/-- `_detect_outliers` (advanced_hourly_analysis.py): indices of the values
strictly outside `[Q1 − 1.5·IQR, Q3 + 1.5·IQR]`; the empty series returns
the empty index set.  (Over exact rationals the NaN guard of the source is
unreachable: quartiles of a non-empty series always exist.) -/
def detectOutliers (data : List ℚ) : List ℕ :=
  if data = [] then []
  else
    let q25 := percentile data 25
    let q75 := percentile data 75
    let iqr := q75 - q25
    let lowerBound := q25 - 3/2 * iqr
    let upperBound := q75 + 3/2 * iqr
    (List.range data.length).filter fun i =>
      data.getD i 0 < lowerBound ∨ upperBound < data.getD i 0

theorem insertAsc_replicate_self (c : ℚ) (k : ℕ) :
    insertAsc c (List.replicate k c) = List.replicate (k + 1) c := by
  cases k with
  | zero => rfl
  | succ m => simp [List.replicate_succ, insertAsc]

theorem sortAsc_replicate (n : ℕ) (c : ℚ) :
    sortAsc (List.replicate n c) = List.replicate n c := by
  induction n with
  | zero => rfl
  | succ k ih =>
    rw [List.replicate_succ]
    show insertAsc c (sortAsc (List.replicate k c)) = _
    rw [ih, insertAsc_replicate_self]
    rfl

theorem getD_replicate_of_lt (n i : ℕ) (c d : ℚ) (h : i < n) :
    (List.replicate n c).getD i d = c := by
  induction n generalizing i with
  | zero => omega
  | succ k ih =>
    cases i with
    | zero => rfl
    | succ j => simpa [List.replicate_succ] using ih j (by omega)

theorem percentile_replicate (n : ℕ) (c : ℚ) (q : ℕ) (hq : q ≤ 100)
    (hn : n ≠ 0) : percentile (List.replicate n c) q = c := by
  unfold percentile
  rw [sortAsc_replicate]
  have hi : (n - 1) * q / 100 ≤ n - 1 := by
    calc (n - 1) * q / 100 ≤ (n - 1) * 100 / 100 :=
          Nat.div_le_div_right (Nat.mul_le_mul_left _ hq)
      _ = n - 1 := Nat.mul_div_cancel _ (by norm_num)
  simp only [List.length_replicate]
  rw [getD_replicate_of_lt _ _ _ _ (by omega),
    getD_replicate_of_lt _ _ _ _ (by omega)]
  ring

/-- CLAIM C4 (confirmed).  For every non-empty numeric series, the outlier
indices are exactly the in-range indices whose value lies strictly outside
`[Q1 − 1.5·IQR, Q3 + 1.5·IQR]` for the series' 25th/75th percentiles; and a
degenerate (constant) series of the same length yields the empty outlier
set rather than a failure. -/
theorem detectOutliers_spec (data : List ℚ) (i : ℕ) (c : ℚ)
    (hne : data ≠ []) :
    (i ∈ detectOutliers data ↔ i < data.length ∧
      (data.getD i 0 < percentile data 25 -
          3/2 * (percentile data 75 - percentile data 25) ∨
       percentile data 75 +
          3/2 * (percentile data 75 - percentile data 25) < data.getD i 0)) ∧
    detectOutliers (List.replicate data.length c) = [] := by
  have hn : data.length ≠ 0 := fun h => hne (List.length_eq_zero.1 h)
  constructor
  · unfold detectOutliers
    rw [if_neg hne]
    simp only [List.mem_filter, List.mem_range, decide_eq_true_eq]
  · unfold detectOutliers
    rw [if_neg (by simp [hn] : ¬(List.replicate data.length c = []))]
    dsimp only
    rw [percentile_replicate _ _ _ (by norm_num) hn,
      percentile_replicate _ _ _ (by norm_num) hn]
    rw [List.filter_eq_nil_iff]
    intro a ha
    rw [List.length_replicate, List.mem_range] at ha
    rw [getD_replicate_of_lt _ _ _ _ ha]
    simp only [decide_eq_true_eq, not_or, not_lt]
    constructor <;> [nlinarith; nlinarith]

/-- Witness for `detectOutliers_spec`: the series `[1, 1, 1, 50]`, whose
sole outlier is index 3 (Q1 = 1, Q3 = 13.25, upper bound 31.625 < 50). -/
theorem detectOutliers_spec_witness :
    ((3 : ℕ) ∈ detectOutliers [1, 1, 1, 50] ↔ 3 < ([1, 1, 1, 50] : List ℚ).length ∧
      (([1, 1, 1, 50] : List ℚ).getD 3 0 < percentile [1, 1, 1, 50] 25 -
          3/2 * (percentile [1, 1, 1, 50] 75 - percentile [1, 1, 1, 50] 25) ∨
       percentile [1, 1, 1, 50] 75 +
          3/2 * (percentile [1, 1, 1, 50] 75 - percentile [1, 1, 1, 50] 25) <
          ([1, 1, 1, 50] : List ℚ).getD 3 0)) ∧
    detectOutliers (List.replicate ([1, 1, 1, 50] : List ℚ).length 7) = [] :=
  detectOutliers_spec [1, 1, 1, 50] 3 7 (by simp)

/-- Maximum of a series (`df[...].max()`); 0 for the empty frame (the
NaN-sanitized value). -/
def listMax : List ℚ → ℚ
  | [] => 0
  | y :: ys => ys.foldl max y

/-- Minimum of a series (`df[...].min()`); 0 for the empty frame. -/
def listMin : List ℚ → ℚ
  | [] => 0
  | y :: ys => ys.foldl min y

/-- The `_calculate_performance_metrics` result (advanced_hourly_analysis.py):
totals, per-unit averages, extrema, the four performance-tier counts
(high ≥ 100, medium ≥ 50, low ≥ 20, else none) and the efficiency ratio. -/
structure PerformanceMetrics where
  totalTons : ℚ
  totalTrucks : ℚ
  activeHours : ℕ
  avgTonsPerHour : ℚ
  avgTonsPerActiveHour : ℚ
  avgTonsPerTruck : ℚ
  maxHourlyTons : ℚ
  minHourlyTons : ℚ
  perfHigh : ℕ
  perfMedium : ℕ
  perfLow : ℕ
  perfNone : ℕ
  efficiencyRatio : ℚ
deriving DecidableEq

/-- `_calculate_performance_metrics` (advanced_hourly_analysis.py).  Note
that `efficiency_ratio` divides the active-hour count by the constant 24,
not by the number of rows of the frame. -/
def calculatePerformanceMetrics (df : List HourRecord) : PerformanceMetrics :=
  let totalTons := (df.map (·.totalTons)).sum
  let totalTrucks := (df.map (·.totalCount)).sum
  let activeHours := (df.filter fun r => 0 < r.totalTons).length
  { totalTons := totalTons
    totalTrucks := totalTrucks
    activeHours := activeHours
    avgTonsPerHour := if 0 < totalTons then totalTons / 24 else 0
    avgTonsPerActiveHour :=
      if 0 < activeHours then totalTons / (activeHours : ℚ) else 0
    avgTonsPerTruck := if 0 < totalTrucks then totalTons / totalTrucks else 0
    maxHourlyTons := listMax (df.map (·.totalTons))
    minHourlyTons := listMin (df.map (·.totalTons))
    perfHigh := (df.filter fun r => 100 ≤ r.totalTons).length
    perfMedium := (df.filter fun r => 50 ≤ r.totalTons ∧ r.totalTons < 100).length
    perfLow := (df.filter fun r => 20 ≤ r.totalTons ∧ r.totalTons < 50).length
    perfNone := (df.filter fun r => r.totalTons < 20).length
    efficiencyRatio := if 0 < activeHours then (activeHours : ℚ) / 24 else 0 }

/-- The spec's scenario batch: 24 periods, all zero except period 10 with
120 units carried by one truck. -/
def scenario24 : List HourRecord :=
  List.replicate 10 ⟨0, 0, 0, 0, 0, 0⟩ ++ [⟨120, 1, 0, 0, 0, 0⟩] ++
    List.replicate 13 ⟨0, 0, 0, 0, 0, 0⟩

/-- CLAIM C6 (counterexample).  `efficiency_ratio` is `active_hours / 24`,
not active periods over the number of periods in the batch: for a
single-period batch with positive volume the code reports 1/24 where the
claim demands 1/1. -/
theorem efficiencyRatio_not_active_over_total :
    ¬((calculatePerformanceMetrics [⟨50, 1, 0, 0, 0, 0⟩]).efficiencyRatio =
      ((calculatePerformanceMetrics [⟨50, 1, 0, 0, 0, 0⟩]).activeHours : ℚ) /
        (([⟨50, 1, 0, 0, 0, 0⟩] : List HourRecord).length : ℚ)) := by
  norm_num [calculatePerformanceMetrics, listMax, listMin]

/-- CLAIM C6 (amended).  The active ratio always equals the active-hour
count divided by the constant 24 (so it coincides with active/total exactly
for 24-period batches), and the spec's concrete scenario holds: 24 periods,
all zero except one period of 120 units, gives a "high" tier count of 1 and
an active ratio of 1/24. -/
theorem efficiencyRatio_spec (df : List HourRecord) :
    (calculatePerformanceMetrics df).efficiencyRatio =
      ((calculatePerformanceMetrics df).activeHours : ℚ) / 24 ∧
    (df.length = 24 →
      (calculatePerformanceMetrics df).efficiencyRatio =
        ((calculatePerformanceMetrics df).activeHours : ℚ) / (df.length : ℚ)) ∧
    (calculatePerformanceMetrics scenario24).perfHigh = 1 ∧
    (calculatePerformanceMetrics scenario24).efficiencyRatio = 1 / 24 := by
  have hratio : (calculatePerformanceMetrics df).efficiencyRatio =
      ((calculatePerformanceMetrics df).activeHours : ℚ) / 24 := by
    unfold calculatePerformanceMetrics
    dsimp only
    split_ifs with h
    · rfl
    · have h0 : (df.filter fun r => 0 < r.totalTons).length = 0 := by omega
      rw [h0]
      norm_num
  refine ⟨hratio, ?_, ?_, ?_⟩
  · intro h24
    rw [hratio, h24]
    norm_num
  · norm_num [calculatePerformanceMetrics, scenario24, List.filter_append,
      List.filter_replicate]
  · norm_num [calculatePerformanceMetrics, scenario24, List.filter_append,
      List.filter_replicate]

/-- Witness for `efficiencyRatio_spec` at the 24-period scenario batch,
with the length-24 antecedent discharged there. -/
theorem efficiencyRatio_spec_witness :
    (calculatePerformanceMetrics scenario24).efficiencyRatio =
      ((calculatePerformanceMetrics scenario24).activeHours : ℚ) / 24 ∧
    (calculatePerformanceMetrics scenario24).efficiencyRatio =
      ((calculatePerformanceMetrics scenario24).activeHours : ℚ) /
        (scenario24.length : ℚ) ∧
    (calculatePerformanceMetrics scenario24).perfHigh = 1 ∧
    (calculatePerformanceMetrics scenario24).efficiencyRatio = 1 / 24 := by
  have w := efficiencyRatio_spec scenario24
  exact ⟨w.1, w.2.1 (by simp [scenario24]), w.2.2.1, w.2.2.2⟩

/-- `np.mean` of a series. -/
def listMean (xs : List ℚ) : ℚ := xs.sum / (xs.length : ℚ)

/-- The sample variance (`ddof = 1`, as `pandas.Series.std` uses) of a
series.  The sample standard deviation itself is `√` of this quantity and
is irrational in general; the theorems below take it as a parameter `σ`
constrained by `0 ≤ σ` and `σ² = sampleVariance`. -/
def sampleVariance (xs : List ℚ) : ℚ :=
  (xs.map fun x => (x - listMean xs) ^ 2).sum / ((xs.length : ℚ) - 1)

/-- `_calculate_efficiency_score` (advanced_hourly_analysis.py):
`min(100, active_hours / 24 × 100)`. -/
def calculateEfficiencyScore (df : List HourRecord) : ℚ :=
  let activeHours := (df.filter fun r => 0 < r.totalTons).length
  let efficiencyRatio : ℚ := if 0 < activeHours then (activeHours : ℚ) / 24 else 0
  min 100 (efficiencyRatio * 100)

/-- `_calculate_consistency_score` (advanced_hourly_analysis.py):
`min(100, max(0, 100 − CV))` with `CV = std/mean × 100` (100 when the mean
is not positive); 0 for frames shorter than 2.  `σ` is the sample standard
deviation of the tons series. -/
def calculateConsistencyScore (df : List HourRecord) (σ : ℚ) : ℚ :=
  if df.length < 2 then 0
  else
    let m := listMean (df.map (·.totalTons))
    let cv := if 0 < m then σ / m * 100 else 100
    min 100 (max 0 (100 - cv))

/-- `_calculate_productivity_score` (advanced_hourly_analysis.py):
`min(100, (tons per truck / 10) × 100)`, 0 when there are no trucks. -/
def calculateProductivityScore (df : List HourRecord) : ℚ :=
  let totalTons := (df.map (·.totalTons)).sum
  let totalTrucks := (df.map (·.totalCount)).sum
  if totalTrucks = 0 then 0
  else min 100 (totalTons / totalTrucks / 10 * 100)

/-- `_calculate_balance_score` (advanced_hourly_analysis.py):
`max(0, 100 − |A-share − 0.5| × 200)`, 0 when both stream totals vanish. -/
def calculateBalanceScore (df : List HourRecord) : ℚ :=
  let totalA := (df.map (·.aTons)).sum
  let totalB := (df.map (·.bTons)).sum
  if totalA + totalB = 0 then 0
  else max 0 (100 - |totalA / (totalA + totalB) - 1/2| * 200)

/-- `_calculate_overall_performance_index` (advanced_hourly_analysis.py):
the weighted blend (efficiency 0.3, consistency 0.25, productivity 0.25,
balance 0.2) of the four component scores. -/
def overallPerformanceIndex (df : List HourRecord) (σ : ℚ) : ℚ :=
  calculateEfficiencyScore df * (3/10) +
    calculateConsistencyScore df σ * (1/4) +
    calculateProductivityScore df * (1/4) +
    calculateBalanceScore df * (1/5)

/-- The rule-based weighted sub-score blend of `generate_analysis`
(analysis.py): `quantity×0.4 + quality×0.4 + stability×0.2`. -/
def baseWeightedScore (quantity quality stability : ℤ) : ℚ :=
  (quantity : ℚ) * (2/5) + (quality : ℚ) * (2/5) + (stability : ℚ) * (1/5)

/-- The additive score adjustments of `generate_analysis` (analysis.py,
lines 2120-2150), driven by the pattern anomaly score, the two efficiency
metrics (absent keys contribute nothing) and the seasonal pattern. -/
def patternAdjustment (anomalyScore : ℚ) (volEff qualEff : Option ℚ)
    (seasonal : Option String) : ℚ :=
  (if 7/10 < anomalyScore then -(3/2)
   else if 2/5 < anomalyScore then -(1/2)
   else if anomalyScore < 1/5 then 3/10 else 0) +
  (match volEff with
   | some v => if 120 < v then 1/2 else if v < 80 then -(1/2) else 0
   | none => 0) +
  (match qualEff with
   | some v => if 105 < v then 3/10 else if v < 95 then -(3/10) else 0
   | none => 0) +
  (if seasonal = some "peak_season" then 1/5
   else if seasonal = some "late_season" then -(1/10) else 0)

/-- The final 1–10 normalization of `generate_analysis` (analysis.py,
line 2154): `max(1, min(10, 2 + (s − 1)/4 × 8))`. -/
def finalScore10 (s : ℚ) : ℚ := max 1 (min 10 (2 + (s - 1) / 4 * 8))

theorem sum_map_nonneg (df : List HourRecord) (f : HourRecord → ℚ)
    (h : ∀ r ∈ df, 0 ≤ f r) : 0 ≤ (df.map f).sum := by
  apply List.sum_nonneg
  intro x hx
  obtain ⟨r, hr, rfl⟩ := List.mem_map.1 hx
  exact h r hr

/-- CLAIM C5 (confirmed).  For every non-empty batch of (physically
meaningful: nonnegative volume and truck counts) hourly records, and every
value `σ` of the sample standard deviation of the tons series, the composite
0–100 performance index lies within [0, 100]; and for every sub-score blend
and adjustment signal the final normalized score lies within [1, 10]. -/
theorem composite_scores_bounded (df : List HourRecord) (σ : ℚ)
    (hdf : df ≠ [])
    (htons : ∀ r ∈ df, 0 ≤ r.totalTons)
    (hcnt : ∀ r ∈ df, 0 ≤ r.totalCount)
    (hσ0 : 0 ≤ σ)
    (hσ : σ ^ 2 = sampleVariance (df.map (·.totalTons)))
    (base adj : ℚ) :
    (0 ≤ overallPerformanceIndex df σ ∧ overallPerformanceIndex df σ ≤ 100) ∧
    (1 ≤ finalScore10 (base + adj) ∧ finalScore10 (base + adj) ≤ 10) := by
  have heff : 0 ≤ calculateEfficiencyScore df ∧
      calculateEfficiencyScore df ≤ 100 := by
    unfold calculateEfficiencyScore
    dsimp only
    refine ⟨le_min (by norm_num) ?_, min_le_left _ _⟩
    split_ifs with h
    · positivity
    · norm_num
  have hcons : 0 ≤ calculateConsistencyScore df σ ∧
      calculateConsistencyScore df σ ≤ 100 := by
    unfold calculateConsistencyScore
    dsimp only
    split_ifs with h <;> norm_num
  have hprod : 0 ≤ calculateProductivityScore df ∧
      calculateProductivityScore df ≤ 100 := by
    unfold calculateProductivityScore
    dsimp only
    split_ifs with h
    · norm_num
    · refine ⟨le_min (by norm_num) ?_, min_le_left _ _⟩
      have ht : 0 ≤ (df.map (·.totalTons)).sum := sum_map_nonneg df _ htons
      have hc : 0 ≤ (df.map (·.totalCount)).sum := sum_map_nonneg df _ hcnt
      have hcpos : 0 < (df.map (·.totalCount)).sum := lt_of_le_of_ne hc (Ne.symm h)
      have h1 : 0 ≤ (df.map (·.totalTons)).sum / (df.map (·.totalCount)).sum :=
        div_nonneg ht hcpos.le
      have h2 : 0 ≤ (df.map (·.totalTons)).sum / (df.map (·.totalCount)).sum / 10 :=
        div_nonneg h1 (by norm_num)
      exact mul_nonneg h2 (by norm_num)
  have hbal : 0 ≤ calculateBalanceScore df ∧ calculateBalanceScore df ≤ 100 := by
    unfold calculateBalanceScore
    dsimp only
    split_ifs with h
    · norm_num
    · refine ⟨le_max_left _ _, max_le (by norm_num) ?_⟩
      have : 0 ≤ |(df.map (·.aTons)).sum /
          ((df.map (·.aTons)).sum + (df.map (·.bTons)).sum) - 1/2| * 200 := by
        positivity
      linarith
  refine ⟨?_, le_max_left _ _, max_le (by norm_num) (min_le_left _ _)⟩
  unfold overallPerformanceIndex
  constructor
  · have := heff.1; have := hcons.1; have := hprod.1; have := hbal.1
    linarith
  · have := heff.2; have := hcons.2; have := hprod.2; have := hbal.2
    linarith

/-- Witness for `composite_scores_bounded`: a two-hour batch of 10 tons and
one truck each (σ = 0, the exact sample standard deviation of the constant
series), with the rule-based sub-scores (3,3,3) and a concrete
adjustment. -/
theorem composite_scores_bounded_witness :
    (0 ≤ overallPerformanceIndex
        [⟨10, 1, 5, 5, 0, 0⟩, ⟨10, 1, 5, 5, 0, 0⟩] 0 ∧
      overallPerformanceIndex
        [⟨10, 1, 5, 5, 0, 0⟩, ⟨10, 1, 5, 5, 0, 0⟩] 0 ≤ 100) ∧
    (1 ≤ finalScore10 (baseWeightedScore 3 3 3 +
        patternAdjustment (1/10) none none (some "peak_season")) ∧
      finalScore10 (baseWeightedScore 3 3 3 +
        patternAdjustment (1/10) none none (some "peak_season")) ≤ 10) :=
  composite_scores_bounded [⟨10, 1, 5, 5, 0, 0⟩, ⟨10, 1, 5, 5, 0, 0⟩] 0
    (by simp)
    (by rintro r hr; fin_cases hr <;> norm_num)
    (by rintro r hr; fin_cases hr <;> norm_num)
    le_rfl
    (by norm_num [sampleVariance, listMean])
    (baseWeightedScore 3 3 3)
    (patternAdjustment (1/10) none none (some "peak_season"))

/-- The mutable DataFrame state of `analyze_hourly_performance`: the six
data columns built from the input records, plus the `Moving_Avg` column
that `_identify_peak_performance_periods` assigns (absent until then). -/
structure HourlyDF where
  totalTons : List ℚ
  totalCount : List ℚ
  aTons : List ℚ
  bTons : List ℚ
  freshTons : List ℚ
  burntTons : List ℚ
  movingAvg : Option (List (Option ℚ))
deriving DecidableEq

/-- `pd.DataFrame(hourly_data)`: the frame is built by *copying* the record
fields into fresh columns, so every later mutation acts on this state and
never on the caller's record list. -/
def toDF (recs : List HourRecord) : HourlyDF :=
  ⟨recs.map (·.totalTons), recs.map (·.totalCount), recs.map (·.aTons),
    recs.map (·.bTons), recs.map (·.freshTons), recs.map (·.burntTons), none⟩

/-- `df['Total_Tons'].rolling(window=3, center=True).mean()` (the window is
`min(3, len(df))` in the source, and the assigning branch only runs for
`len(df) ≥ 3`): entry `i` averages rows `i−1, i, i+1`, `None` (NaN) at the
edges where the centered window is incomplete. -/
def movingAvgCol (xs : List ℚ) : List (Option ℚ) :=
  (List.range xs.length).map fun i =>
    if 1 ≤ i ∧ i + 1 < xs.length then
      some ((xs.getD (i - 1) 0 + xs.getD i 0 + xs.getD (i + 1) 0) / 3)
    else none

/-- `df['Total_Tons'].idxmax()`: first index attaining the maximum. -/
def argmaxIdx (xs : List ℚ) : ℕ :=
  xs.enum.foldl (fun best p => if xs.getD best 0 < p.2 then p.1 else best) 0

/-- `_find_consecutive_periods` (advanced_hourly_analysis.py): maximal runs
of consecutive indices, keeping only runs of length ≥ 2. -/
def findConsecutivePeriods (peakHours : List ℕ) : List (List ℕ) :=
  match peakHours with
  | [] => []
  | h :: t => go h [h] t
where
  go (prev : ℕ) (cur : List ℕ) : List ℕ → List (List ℕ)
    | [] => if 1 < cur.length then [cur.reverse] else []
    | x :: rest =>
      if x = prev + 1 then go x (x :: cur) rest
      else (if 1 < cur.length then [cur.reverse] else []) ++ go x [x] rest

/-- The structured result of `_identify_peak_performance_periods`. -/
structure PeakResult where
  isError : Bool
  peakThreshold : ℚ
  peakHours : List ℕ
  consecutivePeaks : List (List ℕ)
  bestHour : ℕ
  bestTons : ℚ
  peakPerformanceRatio : ℚ
deriving DecidableEq

/-- `_identify_peak_performance_periods` (advanced_hourly_analysis.py),
modelled as a state transformer on the shared DataFrame: for frames of at
least 3 rows it *assigns the `Moving_Avg` column into the frame it
received* before computing the 75th-percentile peak analysis; shorter
frames return the error result with the frame untouched. -/
def identifyPeakPerformancePeriods (df : HourlyDF) :
    HourlyDF × PeakResult :=
  if df.totalTons.length < 3 then (df, ⟨true, 0, [], [], 0, 0, 0⟩)
  else
    let df' := { df with movingAvg := some (movingAvgCol df.totalTons) }
    let threshold := percentile df.totalTons 75
    let peakHours := (List.range df.totalTons.length).filter fun i =>
      threshold ≤ df.totalTons.getD i 0
    let best := argmaxIdx df.totalTons
    (df', ⟨false, threshold, peakHours, findConsecutivePeriods peakHours,
      best, df.totalTons.getD best 0,
      (peakHours.length : ℚ) / (df.totalTons.length : ℚ)⟩)

/-- CLAIM C10 (counterexample).  The peak-detection step *does* modify the
structure it receives: on a 3-row frame without a `Moving_Avg` column it
returns the frame with that column added, which differs from its input. -/
theorem peak_step_mutates_received_frame :
    (identifyPeakPerformancePeriods
        ⟨[1, 2, 3], [1, 1, 1], [0, 0, 0], [0, 0, 0], [0, 0, 0], [0, 0, 0],
          none⟩).1 ≠
      ⟨[1, 2, 3], [1, 1, 1], [0, 0, 0], [0, 0, 0], [0, 0, 0], [0, 0, 0],
        none⟩ := by
  simp [identifyPeakPerformancePeriods]

/-- CLAIM C10 (amended).  The entry point builds the DataFrame by copying
the input records (so the caller's record list is never mutated), and the
peak-detection step, on frames of ≥ 3 rows, changes exactly the
`Moving_Avg` column of the frame it receives — every data column is left
unchanged — while shorter frames pass through untouched. -/
theorem peak_step_frame_spec (recs : List HourRecord) (df : HourlyDF)
    (h3 : 3 ≤ df.totalTons.length) :
    (toDF recs).movingAvg = none ∧
    (toDF recs).totalTons = recs.map (·.totalTons) ∧
    (identifyPeakPerformancePeriods df).1 =
      { df with movingAvg := some (movingAvgCol df.totalTons) } ∧
    (identifyPeakPerformancePeriods df).1.totalTons = df.totalTons ∧
    (identifyPeakPerformancePeriods df).1.totalCount = df.totalCount ∧
    (identifyPeakPerformancePeriods df).1.aTons = df.aTons ∧
    (identifyPeakPerformancePeriods df).1.bTons = df.bTons ∧
    (identifyPeakPerformancePeriods df).1.freshTons = df.freshTons ∧
    (identifyPeakPerformancePeriods df).1.burntTons = df.burntTons := by
  have hmain : (identifyPeakPerformancePeriods df).1 =
      { df with movingAvg := some (movingAvgCol df.totalTons) } := by
    unfold identifyPeakPerformancePeriods
    rw [if_neg (not_lt.2 h3)]
  refine ⟨rfl, rfl, hmain, ?_, ?_, ?_, ?_, ?_, ?_⟩ <;> rw [hmain]

/-- Witness for `peak_step_frame_spec` at a concrete 3-row frame. -/
theorem peak_step_frame_spec_witness :
    (toDF []).movingAvg = none ∧
    (toDF []).totalTons = ([] : List HourRecord).map (·.totalTons) ∧
    (identifyPeakPerformancePeriods
        ⟨[1, 2, 3], [1, 1, 1], [0, 0, 0], [0, 0, 0], [0, 0, 0], [0, 0, 0],
          none⟩).1 =
      { (⟨[1, 2, 3], [1, 1, 1], [0, 0, 0], [0, 0, 0], [0, 0, 0], [0, 0, 0],
          none⟩ : HourlyDF) with
        movingAvg := some (movingAvgCol [1, 2, 3]) } ∧
    (identifyPeakPerformancePeriods
        ⟨[1, 2, 3], [1, 1, 1], [0, 0, 0], [0, 0, 0], [0, 0, 0], [0, 0, 0],
          none⟩).1.totalTons = [1, 2, 3] ∧
    (identifyPeakPerformancePeriods
        ⟨[1, 2, 3], [1, 1, 1], [0, 0, 0], [0, 0, 0], [0, 0, 0], [0, 0, 0],
          none⟩).1.totalCount = [1, 1, 1] ∧
    (identifyPeakPerformancePeriods
        ⟨[1, 2, 3], [1, 1, 1], [0, 0, 0], [0, 0, 0], [0, 0, 0], [0, 0, 0],
          none⟩).1.aTons = [0, 0, 0] ∧
    (identifyPeakPerformancePeriods
        ⟨[1, 2, 3], [1, 1, 1], [0, 0, 0], [0, 0, 0], [0, 0, 0], [0, 0, 0],
          none⟩).1.bTons = [0, 0, 0] ∧
    (identifyPeakPerformancePeriods
        ⟨[1, 2, 3], [1, 1, 1], [0, 0, 0], [0, 0, 0], [0, 0, 0], [0, 0, 0],
          none⟩).1.freshTons = [0, 0, 0] ∧
    (identifyPeakPerformancePeriods
        ⟨[1, 2, 3], [1, 1, 1], [0, 0, 0], [0, 0, 0], [0, 0, 0], [0, 0, 0],
          none⟩).1.burntTons = [0, 0, 0] :=
  peak_step_frame_spec []
    ⟨[1, 2, 3], [1, 1, 1], [0, 0, 0], [0, 0, 0], [0, 0, 0], [0, 0, 0], none⟩
    (by norm_num)

/-- `_get_trend_context` (analysis.py), score component: thresholds the two
trend percentages at ±5 and ±2 and sums the signs (0 without trend data). -/
def trendScoreOf (t : TrendData) : ℤ :=
  if ¬t.hasTrendData then 0
  else
    (if 5 < t.tonsTrendPercent then 1
     else if t.tonsTrendPercent < -5 then -1 else 0) +
    (if 2 < t.freshTrendPercent then 1
     else if t.freshTrendPercent < -2 then -1 else 0)

/-- The three 0–5 rule-based sub-scores. -/
structure SubScores where
  quantity : ℤ
  quality : ℤ
  stability : ℤ
deriving DecidableEq

/-- `_calculate_scores` (analysis.py): percentage-deviation banding of
quantity and quality against the historical baseline, and peak-ratio
banding of stability; all zero when today has no volume, neutral 3 where a
baseline is missing. -/
def calculateScores (s : Stats) (e : ExecSummary) : SubScores :=
  if s.todayTotal ≤ 0 then ⟨0, 0, 0⟩
  else
    let quantity : ℤ :=
      if 0 < s.avgDailyTons then
        let diffPct := (s.todayTotal - s.avgDailyTons) / s.avgDailyTons * 100
        if 15 < diffPct then 5 else if 5 < diffPct then 4
        else if diffPct < -20 then 1 else if diffPct < -10 then 2 else 3
      else 3
    let quality : ℤ :=
      if 0 < s.avgFreshPercent then
        let diff := s.type1Percent - s.avgFreshPercent
        if 5 < diff then 5 else if 2 < diff then 4
        else if diff < -8 then 1 else if diff < -4 then 2 else 3
      else 3
    let stability : ℤ :=
      if 0 < e.hoursProcessed ∧ 0 < s.todayTotal then
        let avgHourly := s.todayTotal / e.hoursProcessed
        if 0 < avgHourly then
          let ratio := e.peakHourTons / avgHourly
          if ratio < 13/10 then 5 else if ratio < 8/5 then 4
          else if ratio < 5/2 then 2 else 1
        else 3
      else 3
    ⟨quantity, quality, stability⟩

/-- The seasonal pattern of `_advanced_pattern_recognition` (analysis.py),
a function of the selected date's month. -/
def seasonalPattern (month : ℕ) : Option String :=
  if month ∈ [12, 1, 2] then some "peak_season"
  else if month ∈ [3, 4] then some "late_season"
  else if month ∈ [5, 6, 7, 8, 9, 10, 11] then some "off_season"
  else none

/-- The numeric outputs of the interior AI/pattern helper computations of
`generate_analysis` that feed the score adjustment; the interior as a whole
may fail (`Except.error`), which is the failure mode the outermost boundary
must absorb (claim C8). -/
structure InteriorData where
  anomalyScore : ℚ
  volumeEfficiency : Option ℚ
  qualityEfficiency : Option ℚ

/-- The headline constants of `generate_analysis`'s result object (the Thai
status strings abstracted to tags). -/
inductive Headline where
  | holiday
  | noData
  | offSeason
  | noComparison
  | persona (name : String)
  | internalError
deriving DecidableEq

/-- The fields of the `guru_analysis` result object that the claims
reference. -/
structure GuruResult where
  headline : Headline
  comment : String
  overallScoreValue : ℚ
  aiEnhanced : Bool
deriving DecidableEq

/-- The arguments of `generate_analysis`: the two maps (with flags for the
`isinstance(..., dict)` validation), trend data and the selected date. -/
structure AnalysisInput where
  statsIsDict : Bool
  execIsDict : Bool
  stats : Stats
  execSummary : ExecSummary
  trend : TrendData
  month : ℕ
  day : ℕ

/-- The uniform error result built by the outermost `except` handler of
`generate_analysis`: error headline, the exception text in the comment, and
an overall score value of 0. -/
def errorGuruResult (e : String) : GuruResult := ⟨.internalError, e, 0, false⟩

/-- The body of `generate_analysis` (analysis.py) inside its outermost
`try`: input validation (a non-dict argument raises `ValueError`), the
holiday / no-data / off-season / no-comparison early returns, then the
scoring path.  The fallible interior helper computations are modelled by
the `Except`-valued `interior` argument whose failure propagates out of the
body, exactly as a raised exception would. -/
def generateAnalysisBody (inp : AnalysisInput)
    (interior : Except String InteriorData) : Except String GuruResult :=
  if ¬(inp.statsIsDict ∧ inp.execIsDict) then
    .error "ValueError: statistics or executive_summary is not a dict"
  else if (inp.month = 12 ∧ inp.day = 31) ∨
      (inp.month = 1 ∧ (inp.day = 1 ∨ inp.day = 2)) then
    .ok ⟨.holiday, "factory closed for the new-year holiday", 0, false⟩
  else if inp.stats.todayTotal ≤ 0 then
    .ok ⟨.noData, "no intake data today", 0, false⟩
  else if ¬(12 ≤ inp.month ∨ inp.month ≤ 4) then
    .ok ⟨.offSeason, "no intake in this period", 0, false⟩
  else if ¬inp.stats.hasComparisonData then
    .ok ⟨.noComparison, "no historical comparison data", 0, false⟩
  else
    match interior with
    | .error e => .error e
    | .ok d =>
      let sc := calculateScores inp.stats inp.execSummary
      let persona := selectPersonaName sc.quantity sc.quality sc.stability
        (trendScoreOf inp.trend) inp.execSummary.hoursProcessed
      let base := baseWeightedScore sc.quantity sc.quality sc.stability
      let adj := patternAdjustment d.anomalyScore d.volumeEfficiency
        d.qualityEfficiency (seasonalPattern inp.month)
      .ok ⟨.persona persona, "ai narrative", finalScore10 (base + adj), true⟩

/-- `generate_analysis` (analysis.py): the body wrapped in the outermost
`try/except` boundary, which converts any interior failure into the uniform
error result instead of re-raising. -/
def generateAnalysis (inp : AnalysisInput)
    (interior : Except String InteriorData) : GuruResult :=
  match generateAnalysisBody inp interior with
  | .ok r => r
  | .error e => errorGuruResult e

/-- CLAIM C8 (confirmed).  The entry point is a total function of its
inputs — in this embedding it always returns a `GuruResult`, never an
unhandled exception — and every interior failure (including the input
validation `ValueError`) is converted at the outermost boundary into the
uniform error result: error headline, the failure message, and an overall
score value of 0. -/
theorem generateAnalysis_total_boundary (inp : AnalysisInput)
    (interior : Except String InteriorData) :
    (∃ r, generateAnalysisBody inp interior = .ok r ∧
      generateAnalysis inp interior = r) ∨
    (∃ e, generateAnalysisBody inp interior = .error e ∧
      generateAnalysis inp interior = errorGuruResult e ∧
      (generateAnalysis inp interior).headline = .internalError ∧
      (generateAnalysis inp interior).comment = e ∧
      (generateAnalysis inp interior).overallScoreValue = 0 ∧
      (generateAnalysis inp interior).aiEnhanced = false) := by
  cases h : generateAnalysisBody inp interior with
  | ok r =>
    left
    exact ⟨r, rfl, by unfold generateAnalysis; rw [h]⟩
  | error e =>
    right
    have hg : generateAnalysis inp interior = errorGuruResult e := by
      unfold generateAnalysis; rw [h]
    exact ⟨e, rfl, hg, by rw [hg]; rfl, by rw [hg]; rfl, by rw [hg]; rfl,
      by rw [hg]; rfl⟩
